import Mathlib

/-!
Verification of the MCP Sentinel static scanner.

This file shallowly embeds the detection-and-orchestration pipeline of the
scanner: the per-family pattern catalogs and `detect` functions
(src/detectors/*.rs), the scanner orchestration (src/scanner.rs), and the
result aggregation / threshold gate used by the CLI (src/cli/scan.rs).

The regexes in the catalogs use only a small fragment of regex syntax
(literal characters, single-character classes, `\s`, `.`, `*`, `+`, `?`
over single-character atoms, literal-string alternation, and `\b`), so
they are embedded as values of a small pattern language with an executable
matcher.  Matching is over Unicode scalar values; the ASCII subset of
`\s`, `\w` and byte offsets is used, which coincides with the Rust
semantics on the ASCII inputs considered here.
-/

/-- Word characters for `\b`: ASCII alphanumeric plus underscore. -/
def isWordChar (c : Char) : Bool := c.isAlphanum || c == '_'

/-- Whitespace characters for `\s` (ASCII subset of the Rust regex class). -/
def isSpaceChar (c : Char) : Bool :=
  c == ' ' || c == Char.ofNat 9 || c == Char.ofNat 10 ||
  c == Char.ofNat 11 || c == Char.ofNat 12 || c == Char.ofNat 13

/-- Single-character atoms of the regex fragment used by the catalogs. -/
inductive Atom where
  | lit (c : Char)
  | cls (neg : Bool) (cs : List Char)
  | anyc
  | wsp
deriving DecidableEq, Repr

/-- Whether one input character is accepted by an atom.  `anyc` is `.`,
which in Rust regex matches anything but a newline. -/
def Atom.matches : Atom → Char → Bool
  | .lit a, c => c == a
  | .cls neg cs, c => if neg then !(cs.contains c) else cs.contains c
  | .anyc, c => !(c == Char.ofNat 10)
  | .wsp, c => isSpaceChar c

/-- Pieces of a pattern: a single atom, `atom*`, `atom+`, `atom?`, a word
boundary `\b`, or an alternation of literal strings such as
`(get|post|put|delete)`. -/
inductive Piece where
  | one (a : Atom)
  | star (a : Atom)
  | plus (a : Atom)
  | opt (a : Atom)
  | wordB
  | alts (ss : List (List Char))
deriving DecidableEq, Repr

def isWordO : Option Char → Bool
  | none => false
  | some c => isWordChar c

/-- All ways `atom*` can consume a prefix of the input: consume zero
characters, or one accepted character and then a run of the rest.  Each
entry records the new previous-character context and the remaining input. -/
def starSplits (a : Atom) (prev : Option Char) (cs : List Char) :
    List (Option Char × List Char) :=
  (prev, cs) ::
    (match cs with
     | [] => []
     | c :: cs2 => if a.matches c then starSplits a (some c) cs2 else [])

def altPrev (s : List Char) (prev : Option Char) : Option Char :=
  match s.getLast? with
  | some c => some c
  | none => prev

/-- Match a whole pattern against a prefix of `cs`.  `prev` is the
character immediately before the current position (`none` at the start of
the line), used for `\b`. -/
def matchPat : List Piece → Option Char → List Char → Bool
  | [], _, _ => true
  | .wordB :: ps, prev, cs =>
      (isWordO prev != isWordO cs.head?) && matchPat ps prev cs
  | .one _ :: _, _, [] => false
  | .one a :: ps, _, c :: cs => a.matches c && matchPat ps (some c) cs
  | .opt a :: ps, prev, cs =>
      matchPat ps prev cs ||
        (match cs with
         | [] => false
         | c :: cs2 => a.matches c && matchPat ps (some c) cs2)
  | .plus a :: ps, _, cs =>
      (match cs with
       | [] => false
       | c :: cs2 =>
           a.matches c &&
             (starSplits a (some c) cs2).any (fun pc => matchPat ps pc.1 pc.2))
  | .star a :: ps, prev, cs =>
      (starSplits a prev cs).any (fun pc => matchPat ps pc.1 pc.2)
  | .alts ss :: ps, prev, cs =>
      ss.any (fun s =>
        List.isPrefixOf s cs && matchPat ps (altPrev s prev) (cs.drop s.length))

/-- Try to match at the current position or at any later position. -/
def searchFrom (p : List Piece) (prev : Option Char) : List Char → Bool
  | [] => matchPat p prev []
  | c :: cs => matchPat p prev (c :: cs) || searchFrom p (some c) cs

/-- `Regex::is_match` on one line: the pattern matches somewhere in it. -/
def patMatch (p : List Piece) (l : String) : Bool :=
  searchFrom p none l.data

/-- Index of the first occurrence of `needle` as a contiguous sublist. -/
def findSub (needle : List Char) : List Char → Option Nat
  | [] => if List.isPrefixOf needle [] then some 0 else none
  | c :: cs =>
      if List.isPrefixOf needle (c :: cs) then some 0
      else (findSub needle cs).map (· + 1)

/-- `str::find` for a literal needle (byte offset; equals the character
offset on the ASCII inputs considered here). -/
def rustFind (hay needle : String) : Option Nat :=
  findSub needle.data hay.data

/-- `str::contains` for a literal needle. -/
def strContains (hay needle : String) : Bool :=
  (findSub needle.data hay.data).isSome

/-- A pattern that is just a literal character sequence. -/
def litsL (cs : List Char) : List Piece :=
  cs.map (fun c => Piece.one (Atom.lit c))

def lits (s : String) : List Piece := litsL s.data

/-- `str::split_inclusive('\n')`: segments keep their trailing newline. -/
def linesSplit (cs : List Char) : List (List Char) :=
  cs.foldr
    (fun c acc =>
      if c = Char.ofNat 10 then [Char.ofNat 10] :: acc
      else
        match acc with
        | [] => [[c]]
        | a :: r => (c :: a) :: r)
    []

/-- Strip a trailing `\n`, and then a trailing `\r` only if the `\n` was
present — the exact per-line normalization of Rust's `str::lines`. -/
def lineMap (seg : List Char) : List Char :=
  match seg.getLast? with
  | some c =>
      if c = Char.ofNat 10 then
        let s := seg.dropLast
        match s.getLast? with
        | some d => if d = Char.ofNat 13 then s.dropLast else s
        | none => s
      else seg
  | none => seg

/-- Rust `str::lines`. -/
def rustLines (s : String) : List String :=
  (linesSplit s.data).map (fun seg => String.mk (lineMap seg))

/-- Rust `str::trim` (ASCII whitespace subset). -/
def rustTrim (cs : List Char) : List Char :=
  ((cs.dropWhile isSpaceChar).reverse.dropWhile isSpaceChar).reverse

/-- The comment heuristic of the code-injection detector: the trimmed line
starts with `#` or `//`. -/
def isCommentLine (l : String) : Bool :=
  let t := rustTrim l.data
  List.isPrefixOf ['#'] t || List.isPrefixOf ['/', '/'] t

/-- Modelled from the spec: the `Severity` enumeration of
models/vulnerability.rs (not under src/), ordered Low < Medium < High <
Critical. -/
inductive Severity where
  | low
  | medium
  | high
  | critical
deriving DecidableEq, Repr

/-- Numeric rank realizing the ordering Low < Medium < High < Critical. -/
def Severity.level : Severity → Nat
  | .low => 0
  | .medium => 1
  | .high => 2
  | .critical => 3

/-- Modelled from the spec: the closed `VulnerabilityType` enumeration of
models/vulnerability.rs (not under src/); only the variants used by the
detectors in src/ are needed. -/
inductive VulnerabilityType where
  | codeInjection
  | unsafeDeserialization
  | pathTraversal
  | sqlInjection
  | dataExfiltration
  | commandInjection
  | sensitiveFileAccess
  | toolPoisoning
  | promptInjection
  | secretExposure
deriving DecidableEq, Repr

/-- Modelled from the spec: `Location` of models/vulnerability.rs (not
under src/): file path, optional 1-based line, optional 1-based column. -/
structure Location where
  file : String
  line : Option Nat
  column : Option Nat
deriving DecidableEq, Repr

def Location.new (file : String) : Location := ⟨file, none, none⟩

def Location.with_line (l : Location) (n : Nat) : Location := { l with line := some n }

def Location.with_column (l : Location) (c : Nat) : Location := { l with column := some c }

/-- Modelled from the spec: the `Vulnerability` (Finding) record of
models/vulnerability.rs (not under src/).  `evidence` is an open string
map, modelled as key/value pairs in insertion order; `confidence` is a
stored constant in [0,1], modelled exactly as a rational. -/
structure Vulnerability where
  id : String
  kind : VulnerabilityType
  severity : Severity
  title : String
  description : String
  location : Location
  impact : String
  remediation : String
  code_snippet : String
  confidence : ℚ
  evidence : List (String × String)
deriving DecidableEq, Repr

/-- Modelled from the spec: `Vulnerability::new` sets the identifying
fields; all builder-set fields start at their defaults. -/
def Vulnerability.new (id : String) (kind : VulnerabilityType)
    (severity : Severity) (title descr : String) : Vulnerability :=
  { id := id, kind := kind, severity := severity, title := title,
    description := descr, location := ⟨"", none, none⟩, impact := "",
    remediation := "", code_snippet := "", confidence := 0, evidence := [] }

def Vulnerability.with_location (v : Vulnerability) (l : Location) : Vulnerability :=
  { v with location := l }

def Vulnerability.with_impact (v : Vulnerability) (s : String) : Vulnerability :=
  { v with impact := s }

def Vulnerability.with_remediation (v : Vulnerability) (s : String) : Vulnerability :=
  { v with remediation := s }

def Vulnerability.with_code_snippet (v : Vulnerability) (s : String) : Vulnerability :=
  { v with code_snippet := s }

def Vulnerability.with_confidence (v : Vulnerability) (c : ℚ) : Vulnerability :=
  { v with confidence := c }

def Vulnerability.with_evidence (v : Vulnerability) (e : List (String × String)) : Vulnerability :=
  { v with evidence := e }

/-- Rust's `format!("{:03}", n)`: decimal, zero-padded to width 3. -/
def pad3 (n : Nat) : String :=
  if n < 10 then "00" ++ toString n
  else if n < 100 then "0" ++ toString n
  else toString n


/-- `\s*` -/
def pWsS : Piece := .star .wsp

/-- `\s+` -/
def pWsP : Piece := .plus .wsp

/-- `\(` -/
def pLp : Piece := .one (.lit '(')

/-- `\)` -/
def pRp : Piece := .one (.lit ')')

/-- `[^)]*` -/
def pNotRp : Piece := .star (.cls true [')'])

/-- `['"]` -/
def aQuote : Atom := .cls false [Char.ofNat 39, Char.ofNat 34]

/-- `.*` -/
def pAnyS : Piece := .star .anyc

/-- One entry of the code-injection catalog
(src/detectors/code_injection.rs): pattern name, targeted language, the
regex source text (used by `detect` for the column heuristic), its embedded
matcher, human description and severity. -/
structure CodeInjectionPattern where
  name : String
  language : String
  regexSrc : String
  pat : List Piece
  descr : String
  severity : Severity
deriving DecidableEq, Repr

/-- The code-injection catalog, in table order
(`CODE_INJECTION_PATTERNS` of src/detectors/code_injection.rs). -/
def CODE_INJECTION_PATTERNS : List CodeInjectionPattern :=
  [ { name := "Python eval() usage", language := "Python",
      regexSrc := "\\beval\\s*\\(",
      pat := [Piece.wordB] ++ lits "eval" ++ [pWsS, pLp],
      descr := "Dynamic code evaluation using eval() detected",
      severity := .critical },
    { name := "Python exec() usage", language := "Python",
      regexSrc := "\\bexec\\s*\\(",
      pat := [Piece.wordB] ++ lits "exec" ++ [pWsS, pLp],
      descr := "Dynamic code execution using exec() detected",
      severity := .critical },
    { name := "Python compile() usage", language := "Python",
      regexSrc := "\\bcompile\\s*\\(",
      pat := [Piece.wordB] ++ lits "compile" ++ [pWsS, pLp],
      descr := "Dynamic code compilation using compile() detected",
      severity := .high },
    { name := "Python __import__() usage", language := "Python",
      regexSrc := "__import__\\s*\\(",
      pat := lits "__import__" ++ [pWsS, pLp],
      descr := "Dynamic module import using __import__() detected",
      severity := .high },
    { name := "Python eval via getattr", language := "Python",
      regexSrc := "getattr\\s*\\([^)]*,\\s*[\x27\"]eval[\x27\"]\\s*\\)",
      pat := lits "getattr" ++ [pWsS, pLp, pNotRp, Piece.one (.lit ','), pWsS,
               Piece.one aQuote] ++ lits "eval" ++ [Piece.one aQuote, pWsS, pRp],
      descr := "Obfuscated eval() usage via getattr detected",
      severity := .critical },
    { name := "JavaScript eval() usage", language := "JavaScript/TypeScript",
      regexSrc := "\\beval\\s*\\(",
      pat := [Piece.wordB] ++ lits "eval" ++ [pWsS, pLp],
      descr := "Dynamic code evaluation using eval() detected",
      severity := .critical },
    { name := "JavaScript Function() constructor", language := "JavaScript/TypeScript",
      regexSrc := "\\bnew\\s+Function\\s*\\(",
      pat := [Piece.wordB] ++ lits "new" ++ [pWsP] ++ lits "Function" ++ [pWsS, pLp],
      descr := "Dynamic function creation using Function() constructor detected",
      severity := .critical },
    { name := "JavaScript Function() without new", language := "JavaScript/TypeScript",
      regexSrc := "\\bFunction\\s*\\([^)]*\\)\\s*\\(",
      pat := [Piece.wordB] ++ lits "Function" ++ [pWsS, pLp, pNotRp, pRp, pWsS, pLp],
      descr := "Dynamic function creation using Function() detected",
      severity := .critical },
    { name := "Node.js vm.runInNewContext", language := "JavaScript/TypeScript",
      regexSrc := "vm\\.runInNewContext\\s*\\(",
      pat := lits "vm.runInNewContext" ++ [pWsS, pLp],
      descr := "Code execution in new context using vm.runInNewContext detected",
      severity := .critical },
    { name := "Node.js vm.runInThisContext", language := "JavaScript/TypeScript",
      regexSrc := "vm\\.runInThisContext\\s*\\(",
      pat := lits "vm.runInThisContext" ++ [pWsS, pLp],
      descr := "Code execution in current context using vm.runInThisContext detected",
      severity := .critical },
    { name := "Node.js vm.runInContext", language := "JavaScript/TypeScript",
      regexSrc := "vm\\.runInContext\\s*\\(",
      pat := lits "vm.runInContext" ++ [pWsS, pLp],
      descr := "Code execution using vm.runInContext detected",
      severity := .critical },
    { name := "Ruby eval() usage", language := "Ruby",
      regexSrc := "\\beval\\s*\\(",
      pat := [Piece.wordB] ++ lits "eval" ++ [pWsS, pLp],
      descr := "Dynamic code evaluation using eval() detected",
      severity := .critical },
    { name := "Ruby instance_eval usage", language := "Ruby",
      regexSrc := "\\.instance_eval\\s*\\(",
      pat := lits ".instance_eval" ++ [pWsS, pLp],
      descr := "Dynamic code evaluation using instance_eval detected",
      severity := .critical },
    { name := "Ruby class_eval usage", language := "Ruby",
      regexSrc := "\\.class_eval\\s*\\(",
      pat := lits ".class_eval" ++ [pWsS, pLp],
      descr := "Dynamic code evaluation using class_eval detected",
      severity := .critical },
    { name := "Ruby module_eval usage", language := "Ruby",
      regexSrc := "\\.module_eval\\s*\\(",
      pat := lits ".module_eval" ++ [pWsS, pLp],
      descr := "Dynamic code evaluation using module_eval detected",
      severity := .critical },
    { name := "Python execfile() usage", language := "Python",
      regexSrc := "\\bexecfile\\s*\\(",
      pat := [Piece.wordB] ++ lits "execfile" ++ [pWsS, pLp],
      descr := "Dynamic file execution using execfile() detected (Python 2)",
      severity := .critical },
    { name := "Python InteractiveInterpreter", language := "Python",
      regexSrc := "code\\.InteractiveInterpreter",
      pat := lits "code.InteractiveInterpreter",
      descr := "Interactive code interpreter usage detected",
      severity := .high },
    { name := "PHP eval() usage", language := "PHP",
      regexSrc := "\\beval\\s*\\(",
      pat := [Piece.wordB] ++ lits "eval" ++ [pWsS, pLp],
      descr := "Dynamic code evaluation using eval() detected",
      severity := .critical },
    { name := "PHP assert() with code string", language := "PHP",
      regexSrc := "\\bassert\\s*\\(\\s*[\x27\"]",
      pat := [Piece.wordB] ++ lits "assert" ++ [pWsS, pLp, pWsS, Piece.one aQuote],
      descr := "Code execution using assert() with string detected",
      severity := .critical },
    { name := "PHP preg_replace /e modifier", language := "PHP",
      regexSrc := "preg_replace\\s*\\([^)]*[\x27\"]/.*e.*[\x27\"]",
      pat := lits "preg_replace" ++ [pWsS, pLp, pNotRp, Piece.one aQuote,
               Piece.one (.lit '/'), pAnyS, Piece.one (.lit 'e'), pAnyS,
               Piece.one aQuote],
      descr := "Code execution using preg_replace with /e modifier detected",
      severity := .critical } ]

/-- One entry of the deserialization catalog
(src/detectors/deserialization.rs). -/
structure DeserializationPattern where
  name : String
  language : String
  pat : List Piece
  descr : String
  severity : Severity
deriving DecidableEq, Repr

/-- The deserialization catalog, in table order
(`DESERIALIZATION_PATTERNS` of src/detectors/deserialization.rs). -/
def DESERIALIZATION_PATTERNS : List DeserializationPattern :=
  [ { name := "Python pickle.loads()", language := "Python",
      pat := lits "pickle.load" ++ [Piece.opt (.lit 's'), pWsS, pLp],
      descr := "Unsafe deserialization using pickle detected",
      severity := .critical },
    { name := "Python yaml.load() without SafeLoader", language := "Python",
      pat := lits "yaml.load" ++ [pWsS, pLp, Piece.star (.cls true [',', ')']), pRp],
      descr := "Unsafe YAML deserialization without SafeLoader detected",
      severity := .critical },
    { name := "Python marshal.loads()", language := "Python",
      pat := lits "marshal.load" ++ [Piece.opt (.lit 's'), pWsS, pLp],
      descr := "Unsafe deserialization using marshal detected",
      severity := .high },
    { name := "Python shelve usage", language := "Python",
      pat := lits "shelve.open" ++ [pWsS, pLp],
      descr := "Shelve uses pickle internally, potential unsafe deserialization",
      severity := .medium },
    { name := "Java ObjectInputStream.readObject()", language := "Java",
      pat := lits "ObjectInputStream" ++ [pAnyS] ++ lits ".readObject" ++ [pWsS, pLp],
      descr := "Unsafe Java object deserialization detected",
      severity := .critical },
    { name := "PHP unserialize()", language := "PHP",
      pat := [Piece.wordB] ++ lits "unserialize" ++ [pWsS, pLp],
      descr := "Unsafe PHP deserialization detected",
      severity := .critical },
    { name := "Ruby Marshal.load()", language := "Ruby",
      pat := lits "Marshal.load" ++ [pWsS, pLp],
      descr := "Unsafe Ruby deserialization using Marshal detected",
      severity := .critical },
    { name := "Node.js node-serialize", language := "JavaScript/TypeScript",
      pat := lits "serialize.unserialize" ++ [pWsS, pLp],
      descr := "Unsafe deserialization using node-serialize detected",
      severity := .critical } ]

/-- `SQL_INJECTION_PATTERNS` of src/detectors/sql_injection.rs, in table
order. -/
def SQL_INJECTION_PATTERNS : List (List Piece) :=
  [ lits "execute" ++ [pWsS, pLp, pNotRp, Piece.one (.lit '+'), pNotRp, pRp],
    lits "execute" ++ [pWsS, pLp, pNotRp, Piece.one (.lit '%'), pNotRp, pRp],
    lits "execute" ++ [pWsS, pLp, pNotRp, Piece.one (.lit 'f'), Piece.one aQuote,
      Piece.star (.cls true [Char.ofNat 34, Char.ofNat 39]),
      Piece.one (.lit (Char.ofNat 123)), Piece.star (.cls true [Char.ofNat 125]),
      Piece.one (.lit (Char.ofNat 125))],
    lits ".raw" ++ [pWsS, pLp, pNotRp, Piece.one (.lit '+'), pNotRp, pRp],
    lits "query" ++ [pWsS, pLp, pNotRp, Piece.one (.lit '+'), pNotRp, pRp] ]

/-- `PATH_TRAVERSAL_PATTERNS` of src/detectors/path_traversal.rs, in table
order. -/
def PATH_TRAVERSAL_PATTERNS : List (List Piece) :=
  [ lits "../",
    lits "..\\",
    lits "%2e%2e/",
    lits "....//..../",
    lits "open" ++ [pWsS, pLp, pNotRp, Piece.one (.lit '+'), pNotRp, pRp] ]

/-- `SSRF_PATTERNS` of src/detectors/ssrf.rs, in table order. -/
def SSRF_PATTERNS : List (List Piece) :=
  [ lits "requests." ++ [Piece.alts ["get".data, "post".data, "put".data, "delete".data],
      pWsS, pLp, pNotRp, Piece.one (.lit '+'), pNotRp, pRp],
    lits "urllib.request.urlopen" ++ [pWsS, pLp, pNotRp, Piece.one (.lit '+'), pNotRp, pRp],
    lits "fetch" ++ [pWsS, pLp, pNotRp, Piece.one (.lit '+'), pNotRp, pRp],
    lits "axios." ++ [Piece.alts ["get".data, "post".data],
      pWsS, pLp, pNotRp, Piece.one (.lit '+'), pNotRp, pRp],
    lits "http." ++ [Piece.alts ["get".data, "request".data],
      pWsS, pLp, pNotRp, Piece.one (.lit '+'), pNotRp, pRp] ]

/-- Body of the pattern loop of code_injection.rs `detect`: the finding
built for one matching catalog entry, including the literal-substring
column heuristic on the regex source text. -/
def ciMk (p : CodeInjectionPattern) (n lineNum : Nat) (l file_path : String) : Vulnerability :=
  ((((((Vulnerability.new ("CODE-INJ-" ++ pad3 n) .codeInjection p.severity
    (p.name ++ " Detected") p.descr).with_location
      (((Location.new file_path).with_line (lineNum + 1)).with_column
        ((rustFind l p.regexSrc).getD 0 + 1))).with_impact
    "Attackers can execute arbitrary code on the server, leading to complete system compromise, data theft, or service disruption.").with_remediation
    ("Never use " ++ p.name ++ " with untrusted input. Instead:\n- Use safe alternatives (e.g., ast.literal_eval() for Python)\n- Implement input validation and sanitization\n- Use a whitelist of allowed operations\n- Consider sandboxed execution environments\n- Review security guidelines for " ++ p.language)).with_code_snippet
    l).with_confidence (9/10)).with_evidence
    [("language", p.language), ("pattern", p.name), ("cwe", "CWE-94: Code Injection")]

/-- Body of the pattern loop of deserialization.rs `detect`. -/
def deserMk (p : DeserializationPattern) (n lineNum : Nat) (l file_path : String) : Vulnerability :=
  ((((((Vulnerability.new ("DESER-" ++ pad3 n) .unsafeDeserialization p.severity
    (p.name ++ " Detected") p.descr).with_location
      ((Location.new file_path).with_line (lineNum + 1))).with_impact
    "Attackers can craft malicious serialized objects that execute arbitrary code when deserialized, leading to full system compromise.").with_remediation
    ("For " ++ p.language ++ ": Use safe alternatives like JSON, or implement strict type checking and validation before deserialization. Consider using allowlists for allowed classes.")).with_code_snippet
    l).with_confidence (22/25)).with_evidence
    [("language", p.language), ("cwe", "CWE-502")]

/-- The (pattern-independent) finding built by sql_injection.rs `detect`
for a matched line. -/
def sqlMk (n lineNum : Nat) (l file_path : String) : Vulnerability :=
  (((((Vulnerability.new ("SQL-INJ-" ++ pad3 n) .sqlInjection .critical
    "SQL Injection Pattern Detected"
    "Potential SQL injection via string concatenation").with_location
      ((Location.new file_path).with_line (lineNum + 1))).with_impact
    "Database compromise, data theft, authentication bypass").with_remediation
    "Use parameterized queries or prepared statements").with_code_snippet
    l).with_confidence (17/20)

/-- The (pattern-independent) finding built by path_traversal.rs `detect`
for a matched line. -/
def pathMk (n lineNum : Nat) (l file_path : String) : Vulnerability :=
  (((((Vulnerability.new ("PATH-TRAV-" ++ pad3 n) .pathTraversal .high
    "Path Traversal Pattern Detected"
    "Potential directory traversal vulnerability detected").with_location
      ((Location.new file_path).with_line (lineNum + 1))).with_impact
    "Attackers can access files outside intended directory").with_remediation
    "Validate and sanitize file paths, use os.path.abspath(), check path prefix").with_code_snippet
    l).with_confidence (3/4)

/-- The (pattern-independent) finding built by ssrf.rs `detect` for a
matched line. -/
def ssrfMk (n lineNum : Nat) (l file_path : String) : Vulnerability :=
  (((((Vulnerability.new ("SSRF-" ++ pad3 n) .dataExfiltration .high
    "SSRF Pattern Detected"
    "Potential Server-Side Request Forgery detected").with_location
      ((Location.new file_path).with_line (lineNum + 1))).with_impact
    "Attackers can make server requests to internal/external resources").with_remediation
    "Validate URLs against allowlist, block internal IPs, use dedicated HTTP client with restrictions").with_code_snippet
    l).with_confidence (7/10)

/-- The inner pattern loop shared (textually identical up to the finding
constructor) by code_injection.rs and deserialization.rs: every matching
catalog entry pushes its own finding and increments the id counter. -/
def perMatchPats {α : Type} (pm : α → String → Bool)
    (mk : α → Nat → Nat → String → String → Vulnerability)
    (path l : String) (lineNum : Nat) : List α → Nat → List Vulnerability
  | [], _ => []
  | p :: ps, n =>
      if pm p l then
        mk p n lineNum l path :: perMatchPats pm mk path l lineNum ps (n + 1)
      else perMatchPats pm mk path l lineNum ps n

/-- The line loop of code_injection.rs / deserialization.rs `detect`:
`skip` is the comment heuristic (present only in code_injection.rs). -/
def perMatchLines {α : Type} (skip : Bool) (pm : α → String → Bool)
    (mk : α → Nat → Nat → String → String → Vulnerability)
    (pats : List α) (path : String) : List String → Nat → Nat → List Vulnerability
  | [], _, _ => []
  | l :: ls, lineNum, n =>
      if skip && isCommentLine l then
        perMatchLines skip pm mk pats path ls (lineNum + 1) n
      else
        perMatchPats pm mk path l lineNum pats n ++
          perMatchLines skip pm mk pats path ls (lineNum + 1)
            (n + (perMatchPats pm mk path l lineNum pats n).length)

/-- The line loop shared (textually identical up to catalog and finding
constructor) by sql_injection.rs, path_traversal.rs and ssrf.rs `detect`:
the pattern loop `break`s after the first matching pattern, so a matched
line contributes exactly one finding. -/
def firstMatchLines (pats : List (List Piece))
    (mk : Nat → Nat → String → String → Vulnerability)
    (path : String) : List String → Nat → Nat → List Vulnerability
  | [], _, _ => []
  | l :: ls, lineNum, n =>
      if pats.any (fun p => patMatch p l) then
        mk n lineNum l path :: firstMatchLines pats mk path ls (lineNum + 1) (n + 1)
      else firstMatchLines pats mk path ls (lineNum + 1) n

/-- `detect` of src/detectors/code_injection.rs. -/
def code_injection.detect (content file_path : String) : Except String (List Vulnerability) :=
  .ok (perMatchLines true (fun p l => patMatch p.pat l) ciMk
        CODE_INJECTION_PATTERNS file_path (rustLines content) 0 1)

/-- `detect` of src/detectors/deserialization.rs. -/
def deserialization.detect (content file_path : String) : Except String (List Vulnerability) :=
  .ok (perMatchLines false (fun p l => patMatch p.pat l) deserMk
        DESERIALIZATION_PATTERNS file_path (rustLines content) 0 1)

/-- `detect` of src/detectors/sql_injection.rs. -/
def sql_injection.detect (content file_path : String) : Except String (List Vulnerability) :=
  .ok (firstMatchLines SQL_INJECTION_PATTERNS sqlMk file_path (rustLines content) 0 1)

/-- `detect` of src/detectors/path_traversal.rs. -/
def path_traversal.detect (content file_path : String) : Except String (List Vulnerability) :=
  .ok (firstMatchLines PATH_TRAVERSAL_PATTERNS pathMk file_path (rustLines content) 0 1)

/-- `detect` of src/detectors/ssrf.rs. -/
def ssrf.detect (content file_path : String) : Except String (List Vulnerability) :=
  .ok (firstMatchLines SSRF_PATTERNS ssrfMk file_path (rustLines content) 0 1)

/-- `detect` of src/detectors/secrets.rs (stub). -/
def secrets.detect (_content _file_path : String) : Except String (List Vulnerability) :=
  .ok []

/-- `detect_command_injection` of src/detectors/code_vulns.rs (stub). -/
def code_vulns.detect_command_injection (_content _file_path : String) :
    Except String (List Vulnerability) :=
  .ok []

/-- `detect_sensitive_file_access` of src/detectors/code_vulns.rs (stub). -/
def code_vulns.detect_sensitive_file_access (_content _file_path : String) :
    Except String (List Vulnerability) :=
  .ok []

/-- `detect` of src/detectors/tool_poisoning.rs (stub; takes only the
content). -/
def tool_poisoning.detect (_content : String) : Except String (List Vulnerability) :=
  .ok []

/-- `detect` of src/detectors/prompt_injection.rs (stub; takes only the
content). -/
def prompt_injection.detect (_content : String) : Except String (List Vulnerability) :=
  .ok []

/-- The findings carried by a detector result; an error carries none. -/
def okFindings : Except String (List Vulnerability) → List Vulnerability
  | .ok vs => vs
  | .error _ => []

/-- Modelled from the spec: the per-severity counters of
models/scan_result.rs (not under src/). -/
structure ScanSummary where
  total_issues : Nat
  critical : Nat
  high : Nat
  medium : Nat
  low : Nat
deriving DecidableEq, Repr

def ScanSummary.zero : ScanSummary := ⟨0, 0, 0, 0, 0⟩

/-- Modelled from the spec: scan metadata of models/scan_result.rs (not
under src/). -/
structure ScanMetadata where
  scan_duration_ms : Nat
deriving DecidableEq, Repr

/-- Modelled from the spec: `ScanResult` of models/scan_result.rs (not
under src/): target, scan modes, ordered findings, summary counters and
metadata. -/
structure ScanResult where
  target : String
  scan_types : List String
  findings : List Vulnerability
  summary : ScanSummary
  metadata : ScanMetadata
deriving DecidableEq, Repr

/-- Modelled from the spec: `ScanResult::new` starts empty. -/
def ScanResult.new (target : String) (scan_types : List String) : ScanResult :=
  ⟨target, scan_types, [], .zero, ⟨0⟩⟩

/-- Increment `total_issues` and the counter of one finding's severity. -/
def bumpSummary (s : ScanSummary) (v : Vulnerability) : ScanSummary :=
  let s := { s with total_issues := s.total_issues + 1 }
  match v.severity with
  | .critical => { s with critical := s.critical + 1 }
  | .high => { s with high := s.high + 1 }
  | .medium => { s with medium := s.medium + 1 }
  | .low => { s with low := s.low + 1 }

/-- Modelled from the spec: `add_vulnerabilities` appends to the findings
sequence and increments the severity counters. -/
def ScanResult.add_vulnerabilities (r : ScanResult) (vs : List Vulnerability) : ScanResult :=
  { r with findings := r.findings ++ vs, summary := vs.foldl bumpSummary r.summary }

/-- Modelled from the spec: `set_duration` records the elapsed
milliseconds. -/
def ScanResult.set_duration (r : ScanResult) (ms : Nat) : ScanResult :=
  { r with metadata := ⟨ms⟩ }

/-- Modelled from the spec: `has_issues_at_level(threshold)` is true iff
some finding's severity is at or above the threshold under
Low < Medium < High < Critical (used by cli/scan.rs for the fail-on
gate). -/
def ScanResult.has_issues_at_level (r : ScanResult) (t : Severity) : Bool :=
  r.findings.any (fun v => t.level ≤ v.severity.level)

/-- A detector as invoked by scan_file: content and file path to a
fallible finding list.  The read and discovery collaborators of
scanner.rs live in utils/file.rs (outside src/), so they and the detector
slots are supplied as parameters. -/
def DetectorFn : Type := String → String → Except String (List Vulnerability)

/-- The detector loop body of scan_file (scanner.rs): each detector's
result is matched; `Ok` findings extend the accumulator, an `Err` is
logged and skipped.  The ten hardcoded call sites are the instances of
this match over `theDetectors`. -/
def runDetectors (ds : List DetectorFn) (content file_path : String)
    (acc : List Vulnerability) : List Vulnerability :=
  match ds with
  | [] => acc
  | d :: rest =>
      match d content file_path with
      | .ok vs => runDetectors rest content file_path (acc ++ vs)
      | .error _ => runDetectors rest content file_path acc

/-- `scan_file` of scanner.rs, with the read result and detector list as
parameters: a read failure skips the file (Ok with no findings); otherwise
every detector runs over the content. -/
def scanFileWith (ds : List DetectorFn) (readRes : Except String String)
    (file_path : String) : Except String (List Vulnerability) :=
  match readRes with
  | .error _ => .ok []
  | .ok content => .ok (runDetectors ds content file_path [])

/-- The fixed detector order of scan_file (scanner.rs): secrets, command
injection, sensitive file access, tool poisoning, prompt injection, code
injection, deserialization, path traversal, sql injection, ssrf. -/
def theDetectors : List DetectorFn :=
  [ secrets.detect,
    code_vulns.detect_command_injection,
    code_vulns.detect_sensitive_file_access,
    fun content _ => tool_poisoning.detect content,
    fun content _ => prompt_injection.detect content,
    code_injection.detect,
    deserialization.detect,
    path_traversal.detect,
    sql_injection.detect,
    ssrf.detect ]

/-- `scan_file` of scanner.rs with its actual detectors. -/
def scan_file (readRes : Except String String) (file_path : String) :
    Except String (List Vulnerability) :=
  scanFileWith theDetectors readRes file_path

/-- The per-file loop of `scan_directory` (scanner.rs): each file's
`scan_file` result passes through `?` and its findings are folded into the
running result via `add_vulnerabilities`. -/
def scanFilesAcc (ds : List DetectorFn) (readF : String → Except String String) :
    List String → ScanResult → Except String ScanResult
  | [], r => .ok r
  | f :: rest, r =>
      match scanFileWith ds (readF f) f with
      | .error e => .error e
      | .ok vs => scanFilesAcc ds readF rest (r.add_vulnerabilities vs)

/-- `scan_directory` of scanner.rs, with the discovery result, read
collaborator and detector list as parameters: a discovery failure is
returned with context; otherwise every file is scanned and the duration
recorded. -/
def scan_directoryWith (ds : List DetectorFn) (target : String)
    (discover : Except String (List String))
    (readF : String → Except String String) (durationMs : Nat) :
    Except String ScanResult :=
  match discover with
  | .error e => .error ("Failed to discover files: " ++ e)
  | .ok files =>
      match scanFilesAcc ds readF files (ScanResult.new target ["static"]) with
      | .error e => .error e
      | .ok r => .ok (r.set_duration durationMs)

/-- `Scanner::scan_directory` with its actual detectors. -/
def Scanner.scan_directory (target : String)
    (discover : Except String (List String))
    (readF : String → Except String String) (durationMs : Nat) :
    Except String ScanResult :=
  scan_directoryWith theDetectors target discover readF durationMs

/-- Stated from the spec for comparison: the concatenation, in detector
order, of the findings of the detectors that succeeded; a failing detector
contributes nothing. -/
def detectorsOutput (ds : List DetectorFn) (content file_path : String) :
    List Vulnerability :=
  match ds with
  | [] => []
  | d :: rest => okFindings (d content file_path) ++ detectorsOutput rest content file_path

/-- Stated from the spec for comparison: the concatenation, in file order,
of each readable file's detector output; an unreadable file contributes
nothing. -/
def fileFindings (ds : List DetectorFn) (readF : String → Except String String) :
    List String → List Vulnerability
  | [] => []
  | f :: rest =>
      (match readF f with
       | .error _ => []
       | .ok content => detectorsOutput ds content f) ++ fileFindings ds readF rest

/-- Replace the file path stored in a finding's location, leaving every
other field unchanged. -/
def withFile (p : String) (v : Vulnerability) : Vulnerability :=
  { v with location := { v.location with file := p } }


/-- The id texts a detector invocation assigns: `len` consecutive counter
values starting at `n`, each rendered as `pref` + 3-digit zero-padded. -/
def idsFrom (pref : String) : Nat → Nat → List String
  | _, 0 => []
  | n, len + 1 => (pref ++ pad3 n) :: idsFrom pref (n + 1) len

theorem idsFrom_append (pref : String) :
    ∀ (a : Nat) (n b : Nat),
      idsFrom pref n (a + b) = idsFrom pref n a ++ idsFrom pref (n + a) b
  | 0, n, b => by simp [idsFrom]
  | a + 1, n, b => by
      have h : a + 1 + b = (a + b) + 1 := by omega
      rw [h]
      simp only [idsFrom, idsFrom_append pref a (n + 1) b, List.cons_append]
      have h2 : n + 1 + a = n + (a + 1) := by omega
      rw [h2]

theorem idsFrom_eq_range (pref : String) :
    ∀ (len n : Nat),
      idsFrom pref n len = (List.range len).map (fun k => pref ++ pad3 (n + k))
  | 0, n => by simp [idsFrom]
  | len + 1, n => by
      rw [List.range_succ_eq_map]
      simp only [idsFrom, List.map_cons, List.map_map, Nat.add_zero,
        idsFrom_eq_range pref len (n + 1)]
      congr 1
      apply List.map_congr_left
      intro k _
      simp only [Function.comp_apply]
      have h : n + 1 + k = n + (k + 1) := by omega
      rw [h]

theorem perMatchPats_length {α : Type} (pm : α → String → Bool)
    (mk : α → Nat → Nat → String → String → Vulnerability)
    (path l : String) (lineNum : Nat) :
    ∀ (ps : List α) (n : Nat),
      (perMatchPats pm mk path l lineNum ps n).length = ps.countP (fun p => pm p l)
  | [], n => by simp [perMatchPats]
  | p :: ps, n => by
      by_cases h : pm p l
      · simp [perMatchPats, h, List.countP_cons,
          perMatchPats_length pm mk path l lineNum ps (n + 1)]
      · simp [perMatchPats, h, List.countP_cons,
          perMatchPats_length pm mk path l lineNum ps n]

theorem perMatchPats_ids {α : Type} (pm : α → String → Bool)
    (mk : α → Nat → Nat → String → String → Vulnerability)
    (pref path l : String) (lineNum : Nat)
    (hid : ∀ p n, (mk p n lineNum l path).id = pref ++ pad3 n) :
    ∀ (ps : List α) (n : Nat),
      (perMatchPats pm mk path l lineNum ps n).map (fun v => v.id)
        = idsFrom pref n (ps.countP (fun p => pm p l))
  | [], n => by simp [perMatchPats, idsFrom]
  | p :: ps, n => by
      by_cases h : pm p l
      · simp only [perMatchPats, h, if_true, List.map_cons, List.countP_cons, hid,
          perMatchPats_ids pm mk pref path l lineNum hid ps (n + 1)]
        simp [idsFrom]
      · simp [perMatchPats, h, List.countP_cons,
          perMatchPats_ids pm mk pref path l lineNum hid ps n]

theorem perMatchPats_prop {α : Type} (pm : α → String → Bool)
    (mk : α → Nat → Nat → String → String → Vulnerability)
    (path l : String) (lineNum : Nat) (P : Vulnerability → Prop)
    (hmk : ∀ p n, pm p l = true → P (mk p n lineNum l path)) :
    ∀ (ps : List α) (n : Nat) (v : Vulnerability),
      v ∈ perMatchPats pm mk path l lineNum ps n → P v
  | [], n, v => by simp [perMatchPats]
  | p :: ps, n, v => by
      by_cases h : pm p l
      · simp only [perMatchPats, h, if_true, List.mem_cons]
        rintro (rfl | hv)
        · exact hmk p n h
        · exact perMatchPats_prop pm mk path l lineNum P hmk ps (n + 1) v hv
      · simp only [perMatchPats, h, if_false]
        exact perMatchPats_prop pm mk path l lineNum P hmk ps n v

theorem perMatchPats_exists_mem {α : Type} (pm : α → String → Bool)
    (mk : α → Nat → Nat → String → String → Vulnerability)
    (path l : String) (lineNum : Nat) (P : Vulnerability → Prop)
    (hmk : ∀ p n, pm p l = true → P (mk p n lineNum l path)) :
    ∀ (ps : List α) (n : Nat), ps.any (fun p => pm p l) = true →
      ∃ v, v ∈ perMatchPats pm mk path l lineNum ps n ∧ P v
  | [], n => by simp
  | p :: ps, n => by
      by_cases h : pm p l
      · intro _
        exact ⟨mk p n lineNum l path, by simp [perMatchPats, h], hmk p n h⟩
      · simp only [List.any_cons, h, Bool.false_or]
        intro hany
        obtain ⟨v, hv, hP⟩ :=
          perMatchPats_exists_mem pm mk path l lineNum P hmk ps n hany
        exact ⟨v, by simp [perMatchPats, h, hv], hP⟩

theorem perMatchPats_withFile {α : Type} (pm : α → String → Bool)
    (mk : α → Nat → Nat → String → String → Vulnerability)
    (path q l : String) (lineNum : Nat)
    (hmk : ∀ p n, mk p n lineNum l q = withFile q (mk p n lineNum l path)) :
    ∀ (ps : List α) (n : Nat),
      perMatchPats pm mk q l lineNum ps n
        = (perMatchPats pm mk path l lineNum ps n).map (withFile q)
  | [], n => by simp [perMatchPats]
  | p :: ps, n => by
      by_cases h : pm p l
      · simp [perMatchPats, h, hmk,
          perMatchPats_withFile pm mk path q l lineNum hmk ps (n + 1)]
      · simp [perMatchPats, h,
          perMatchPats_withFile pm mk path q l lineNum hmk ps n]

theorem perMatchLines_length {α : Type} (skip : Bool) (pm : α → String → Bool)
    (mk : α → Nat → Nat → String → String → Vulnerability)
    (pats : List α) (path : String) :
    ∀ (ls : List String) (lineNum n : Nat),
      (perMatchLines skip pm mk pats path ls lineNum n).length
        = (ls.map (fun l =>
            if skip && isCommentLine l then 0
            else pats.countP (fun p => pm p l))).sum
  | [], _, _ => by simp [perMatchLines]
  | l :: ls, lineNum, n => by
      by_cases h : (skip && isCommentLine l) = true
      · simp only [perMatchLines, List.map_cons, List.sum_cons, h, if_true]
        rw [perMatchLines_length skip pm mk pats path ls (lineNum + 1) n]
        simp
      · simp only [perMatchLines, if_neg h, List.length_append, List.map_cons,
          List.sum_cons]
        rw [perMatchPats_length pm mk path l lineNum pats n]
        rw [perMatchLines_length skip pm mk pats path ls (lineNum + 1)
          (n + pats.countP (fun p => pm p l))]

theorem perMatchLines_ids {α : Type} (skip : Bool) (pm : α → String → Bool)
    (mk : α → Nat → Nat → String → String → Vulnerability)
    (pats : List α) (path pref : String)
    (hid : ∀ p n lineNum l, (mk p n lineNum l path).id = pref ++ pad3 n) :
    ∀ (ls : List String) (lineNum n : Nat),
      (perMatchLines skip pm mk pats path ls lineNum n).map (fun v => v.id)
        = idsFrom pref n (perMatchLines skip pm mk pats path ls lineNum n).length
  | [], _, _ => by simp [perMatchLines, idsFrom]
  | l :: ls, lineNum, n => by
      by_cases h : (skip && isCommentLine l) = true
      · simp only [perMatchLines, if_pos h]
        exact perMatchLines_ids skip pm mk pats path pref hid ls (lineNum + 1) n
      · simp only [perMatchLines, if_neg h, List.map_append, List.length_append]
        rw [perMatchPats_ids pm mk pref path l lineNum
          (fun p n2 => hid p n2 lineNum l) pats n]
        rw [perMatchLines_ids skip pm mk pats path pref hid ls (lineNum + 1)
          (n + (perMatchPats pm mk path l lineNum pats n).length)]
        rw [perMatchPats_length pm mk path l lineNum pats n]
        rw [idsFrom_append pref (pats.countP (fun p => pm p l)) n
          (perMatchLines skip pm mk pats path ls (lineNum + 1)
            (n + pats.countP (fun p => pm p l))).length]

theorem perMatchLines_prop {α : Type} (skip : Bool) (pm : α → String → Bool)
    (mk : α → Nat → Nat → String → String → Vulnerability)
    (pats : List α) (path : String) (P : Vulnerability → Prop)
    (hmk : ∀ p n lineNum l, pm p l = true → (skip && isCommentLine l) = false →
        P (mk p n lineNum l path)) :
    ∀ (ls : List String) (lineNum n : Nat) (v : Vulnerability),
      v ∈ perMatchLines skip pm mk pats path ls lineNum n → P v
  | [], _, _, v => by simp [perMatchLines]
  | l :: ls, lineNum, n, v => by
      by_cases h : (skip && isCommentLine l) = true
      · simp only [perMatchLines, if_pos h]
        exact perMatchLines_prop skip pm mk pats path P hmk ls (lineNum + 1) n v
      · rw [Bool.not_eq_true] at h
        simp only [perMatchLines, h, Bool.false_eq_true, if_false, List.mem_append]
        rintro (hv | hv)
        · exact perMatchPats_prop pm mk path l lineNum P
            (fun p n2 hp => hmk p n2 lineNum l hp h) pats n v hv
        · exact perMatchLines_prop skip pm mk pats path P hmk ls (lineNum + 1)
            (n + (perMatchPats pm mk path l lineNum pats n).length) v hv

theorem perMatchLines_exists_mem {α : Type} (skip : Bool) (pm : α → String → Bool)
    (mk : α → Nat → Nat → String → String → Vulnerability)
    (pats : List α) (path : String) (P : Vulnerability → Prop) (l : String)
    (hmk : ∀ p n lineNum, pm p l = true → P (mk p n lineNum l path)) :
    ∀ (ls : List String) (lineNum n : Nat), l ∈ ls →
      (skip && isCommentLine l) = false →
      pats.any (fun p => pm p l) = true →
      ∃ v, v ∈ perMatchLines skip pm mk pats path ls lineNum n ∧ P v
  | [], _, _ => by simp
  | l2 :: ls, lineNum, n => by
      intro hmem hnc hany
      rcases List.mem_cons.mp hmem with rfl | hmem2
      · simp only [perMatchLines, hnc, Bool.false_eq_true, if_false]
        obtain ⟨v, hv, hP⟩ := perMatchPats_exists_mem pm mk path l lineNum P
          (fun p n2 => hmk p n2 lineNum) pats n hany
        exact ⟨v, List.mem_append.mpr (Or.inl hv), hP⟩
      · by_cases h : (skip && isCommentLine l2) = true
        · simp only [perMatchLines, if_pos h]
          exact perMatchLines_exists_mem skip pm mk pats path P l hmk ls
            (lineNum + 1) n hmem2 hnc hany
        · simp only [perMatchLines, if_neg h]
          obtain ⟨v, hv, hP⟩ := perMatchLines_exists_mem skip pm mk pats path P l hmk ls
            (lineNum + 1) (n + (perMatchPats pm mk path l2 lineNum pats n).length)
            hmem2 hnc hany
          exact ⟨v, List.mem_append.mpr (Or.inr hv), hP⟩

theorem perMatchLines_withFile {α : Type} (skip : Bool) (pm : α → String → Bool)
    (mk : α → Nat → Nat → String → String → Vulnerability)
    (pats : List α) (path q : String)
    (hmk : ∀ p n lineNum l, mk p n lineNum l q = withFile q (mk p n lineNum l path)) :
    ∀ (ls : List String) (lineNum n : Nat),
      perMatchLines skip pm mk pats q ls lineNum n
        = (perMatchLines skip pm mk pats path ls lineNum n).map (withFile q)
  | [], _, _ => by simp [perMatchLines]
  | l :: ls, lineNum, n => by
      by_cases h : (skip && isCommentLine l) = true
      · simp only [perMatchLines, if_pos h]
        exact perMatchLines_withFile skip pm mk pats path q hmk ls (lineNum + 1) n
      · simp only [perMatchLines, if_neg h, List.map_append]
        rw [perMatchPats_withFile pm mk path q l lineNum
          (fun p n2 => hmk p n2 lineNum l) pats n]
        rw [List.length_map]
        rw [perMatchLines_withFile skip pm mk pats path q hmk ls (lineNum + 1)
          (n + (perMatchPats pm mk path l lineNum pats n).length)]

theorem firstMatchLines_length (pats : List (List Piece))
    (mk : Nat → Nat → String → String → Vulnerability) (path : String) :
    ∀ (ls : List String) (lineNum n : Nat),
      (firstMatchLines pats mk path ls lineNum n).length
        = ls.countP (fun l => pats.any (fun p => patMatch p l))
  | [], _, _ => by simp [firstMatchLines]
  | l :: ls, lineNum, n => by
      by_cases h : pats.any (fun p => patMatch p l) = true
      · simp [firstMatchLines, h, List.countP_cons,
          firstMatchLines_length pats mk path ls (lineNum + 1) (n + 1)]
      · simp [firstMatchLines, h, List.countP_cons,
          firstMatchLines_length pats mk path ls (lineNum + 1) n]

theorem firstMatchLines_ids (pats : List (List Piece))
    (mk : Nat → Nat → String → String → Vulnerability) (path pref : String)
    (hid : ∀ n lineNum l, (mk n lineNum l path).id = pref ++ pad3 n) :
    ∀ (ls : List String) (lineNum n : Nat),
      (firstMatchLines pats mk path ls lineNum n).map (fun v => v.id)
        = idsFrom pref n (firstMatchLines pats mk path ls lineNum n).length
  | [], _, _ => by simp [firstMatchLines, idsFrom]
  | l :: ls, lineNum, n => by
      by_cases h : pats.any (fun p => patMatch p l) = true
      · simp only [firstMatchLines, if_pos h, List.map_cons, List.length_cons, hid,
          firstMatchLines_ids pats mk path pref hid ls (lineNum + 1) (n + 1)]
        simp [idsFrom]
      · simp only [firstMatchLines, if_neg h]
        exact firstMatchLines_ids pats mk path pref hid ls (lineNum + 1) n

theorem firstMatchLines_prop (pats : List (List Piece))
    (mk : Nat → Nat → String → String → Vulnerability) (path : String)
    (P : Vulnerability → Prop)
    (hmk : ∀ n lineNum l, pats.any (fun p => patMatch p l) = true →
        P (mk n lineNum l path)) :
    ∀ (ls : List String) (lineNum n : Nat) (v : Vulnerability),
      v ∈ firstMatchLines pats mk path ls lineNum n → P v
  | [], _, _, v => by simp [firstMatchLines]
  | l :: ls, lineNum, n, v => by
      by_cases h : pats.any (fun p => patMatch p l) = true
      · simp only [firstMatchLines, if_pos h, List.mem_cons]
        rintro (rfl | hv)
        · exact hmk n lineNum l h
        · exact firstMatchLines_prop pats mk path P hmk ls (lineNum + 1) (n + 1) v hv
      · simp only [firstMatchLines, if_neg h]
        exact firstMatchLines_prop pats mk path P hmk ls (lineNum + 1) n v

theorem firstMatchLines_exists_mem (pats : List (List Piece))
    (mk : Nat → Nat → String → String → Vulnerability) (path : String)
    (P : Vulnerability → Prop) (l : String)
    (hmk : ∀ n lineNum, P (mk n lineNum l path)) :
    ∀ (ls : List String) (lineNum n : Nat), l ∈ ls →
      pats.any (fun p => patMatch p l) = true →
      ∃ v, v ∈ firstMatchLines pats mk path ls lineNum n ∧ P v
  | [], _, _ => by simp
  | l2 :: ls, lineNum, n => by
      intro hmem hany
      rcases List.mem_cons.mp hmem with rfl | hmem2
      · exact ⟨mk n lineNum l path, by simp [firstMatchLines, hany], hmk n lineNum⟩
      · by_cases h : pats.any (fun p => patMatch p l2) = true
        · obtain ⟨v, hv, hP⟩ := firstMatchLines_exists_mem pats mk path P l hmk ls
            (lineNum + 1) (n + 1) hmem2 hany
          exact ⟨v, by simp [firstMatchLines, h, hv], hP⟩
        · obtain ⟨v, hv, hP⟩ := firstMatchLines_exists_mem pats mk path P l hmk ls
            (lineNum + 1) n hmem2 hany
          exact ⟨v, by simp [firstMatchLines, h, hv], hP⟩

theorem firstMatchLines_withFile (pats : List (List Piece))
    (mk : Nat → Nat → String → String → Vulnerability) (path q : String)
    (hmk : ∀ n lineNum l, mk n lineNum l q = withFile q (mk n lineNum l path)) :
    ∀ (ls : List String) (lineNum n : Nat),
      firstMatchLines pats mk q ls lineNum n
        = (firstMatchLines pats mk path ls lineNum n).map (withFile q)
  | [], _, _ => by simp [firstMatchLines]
  | l :: ls, lineNum, n => by
      by_cases h : pats.any (fun p => patMatch p l) = true
      · simp [firstMatchLines, h, hmk,
          firstMatchLines_withFile pats mk path q hmk ls (lineNum + 1) (n + 1)]
      · simp [firstMatchLines, h,
          firstMatchLines_withFile pats mk path q hmk ls (lineNum + 1) n]

theorem runDetectors_eq (content file_path : String) :
    ∀ (ds : List DetectorFn) (acc : List Vulnerability),
      runDetectors ds content file_path acc
        = acc ++ detectorsOutput ds content file_path
  | [], acc => by simp [runDetectors, detectorsOutput]
  | d :: rest, acc => by
      cases hd : d content file_path with
      | ok vs =>
          simp [runDetectors, detectorsOutput, hd, okFindings,
            runDetectors_eq content file_path rest (acc ++ vs)]
      | error e =>
          simp [runDetectors, detectorsOutput, hd, okFindings,
            runDetectors_eq content file_path rest acc]

theorem add_vulnerabilities_findings (r : ScanResult) (vs : List Vulnerability) :
    (r.add_vulnerabilities vs).findings = r.findings ++ vs := rfl

theorem scanFilesAcc_ok (ds : List DetectorFn) (readF : String → Except String String) :
    ∀ (files : List String) (r : ScanResult),
      ∃ r2, scanFilesAcc ds readF files r = .ok r2 ∧
        r2.findings = r.findings ++ fileFindings ds readF files
  | [], r => ⟨r, rfl, by simp [fileFindings]⟩
  | f :: rest, r => by
      cases hr : readF f with
      | error e =>
          obtain ⟨r2, h1, h2⟩ :=
            scanFilesAcc_ok ds readF rest (r.add_vulnerabilities [])
          refine ⟨r2, ?_, ?_⟩
          · simp [scanFilesAcc, hr, scanFileWith, h1]
          · simp [h2, add_vulnerabilities_findings, fileFindings, hr]
      | ok content =>
          obtain ⟨r2, h1, h2⟩ := scanFilesAcc_ok ds readF rest
            (r.add_vulnerabilities (runDetectors ds content f []))
          refine ⟨r2, ?_, ?_⟩
          · simp [scanFilesAcc, hr, scanFileWith, h1]
          · simp [h2, add_vulnerabilities_findings, fileFindings, hr,
              runDetectors_eq]

theorem foldl_bumpSummary : ∀ (vs : List Vulnerability) (s : ScanSummary),
    vs.foldl bumpSummary s =
      ⟨s.total_issues + vs.length,
       s.critical + vs.countP (fun v => v.severity == Severity.critical),
       s.high + vs.countP (fun v => v.severity == Severity.high),
       s.medium + vs.countP (fun v => v.severity == Severity.medium),
       s.low + vs.countP (fun v => v.severity == Severity.low)⟩
  | [], s => by simp
  | v :: vs, s => by
      rw [List.foldl_cons, foldl_bumpSummary vs (bumpSummary s v)]
      cases hsev : v.severity <;>
        simp [bumpSummary, hsev, List.countP_cons, ScanSummary.mk.injEq,
          beq_iff_eq] <;> omega

theorem add_vulnerabilities_add (r : ScanResult) (a b : List Vulnerability) :
    (r.add_vulnerabilities a).add_vulnerabilities b
      = r.add_vulnerabilities (a ++ b) := by
  simp [ScanResult.add_vulnerabilities, List.foldl_append, List.append_assoc]

theorem foldl_add_vulnerabilities :
    ∀ (batches : List (List Vulnerability)) (r : ScanResult),
      batches.foldl ScanResult.add_vulnerabilities r
        = r.add_vulnerabilities batches.flatten
  | [], r => by simp [ScanResult.add_vulnerabilities]
  | b :: bs, r => by
      rw [List.foldl_cons, foldl_add_vulnerabilities bs (r.add_vulnerabilities b),
        add_vulnerabilities_add]
      simp [List.flatten]

theorem char_beq_comm (a b : Char) : (a == b) = (b == a) := by
  by_cases h : a = b
  · subst h
    rfl
  · have h2 : ¬ b = a := fun hh => h hh.symm
    simp [h, h2]

theorem matchPat_litsL : ∀ (ns : List Char) (prev : Option Char) (cs : List Char),
    matchPat (litsL ns) prev cs = List.isPrefixOf ns cs
  | [], prev, cs => by simp [litsL, matchPat, List.isPrefixOf]
  | n :: ns, prev, [] => by simp [litsL, matchPat, List.isPrefixOf]
  | n :: ns, prev, c :: cs => by
      simp only [litsL, List.map_cons, matchPat, Atom.matches, List.isPrefixOf]
      rw [← litsL, matchPat_litsL ns (some c) cs, char_beq_comm]

theorem searchFrom_litsL (ns : List Char) :
    ∀ (cs : List Char) (prev : Option Char),
      searchFrom (litsL ns) prev cs = (findSub ns cs).isSome
  | [], prev => by
      simp only [searchFrom, matchPat_litsL, findSub]
      by_cases h : List.isPrefixOf ns ([] : List Char)
      · simp [h]
      · simp [h]
  | c :: cs, prev => by
      simp only [searchFrom, matchPat_litsL, findSub]
      by_cases h : List.isPrefixOf ns (c :: cs)
      · simp [h]
      · simp [h, searchFrom_litsL ns cs (some c)]

theorem patMatch_lits (s l : String) : patMatch (lits s) l = strContains l s := by
  simp [patMatch, lits, strContains, searchFrom_litsL]

/-- C4: each of the five stubbed detectors — secrets exposure, command
injection, sensitive file access, tool poisoning, prompt injection —
returns Ok with an empty finding list for every possible content and file
path (the latter two do not even take a path). -/
theorem c4_stub_detectors_empty (content file_path : String) :
    secrets.detect content file_path = .ok [] ∧
    code_vulns.detect_command_injection content file_path = .ok [] ∧
    code_vulns.detect_sensitive_file_access content file_path = .ok [] ∧
    tool_poisoning.detect content = .ok [] ∧
    prompt_injection.detect content = .ok [] :=
  ⟨rfl, rfl, rfl, rfl, rfl⟩

/-- C2: for a successfully read file, scan_file returns Ok for every
detector list — even one containing failing detectors — and its value is
the concatenation, in the fixed order, of the findings of the detectors
that succeeded; a failing detector contributes nothing and no detector
error is surfaced. -/
theorem c2_detector_failure_isolation (ds : List DetectorFn) (content file_path : String) :
    scanFileWith ds (.ok content) file_path
      = .ok (detectorsOutput ds content file_path) ∧
    ∀ readRes : Except String String, ∃ vs, scanFileWith ds readRes file_path = .ok vs := by
  constructor
  · simp [scanFileWith, runDetectors_eq]
  · intro readRes
    cases readRes with
    | error e => exact ⟨[], rfl⟩
    | ok c => exact ⟨runDetectors ds c file_path [], rfl⟩

/-- C7: scan_directory fails exactly when discovery fails — the discovery
error is propagated with context and no result is produced — while for any
successful discovery it returns Ok, and the returned findings are the
concatenation over the files of each readable file's detector output:
unreadable files and failing detectors contribute nothing and never cause
an error. -/
theorem c7_scan_directory_error_taxonomy (ds : List DetectorFn) (target : String)
    (readF : String → Except String String) (durationMs : Nat) :
    (∀ e, scan_directoryWith ds target (.error e) readF durationMs
        = .error ("Failed to discover files: " ++ e)) ∧
    (∀ files, ∃ r, scan_directoryWith ds target (.ok files) readF durationMs = .ok r ∧
        r.findings = fileFindings ds readF files) := by
  constructor
  · intro e
    rfl
  · intro files
    obtain ⟨r2, h1, h2⟩ :=
      scanFilesAcc_ok ds readF files (ScanResult.new target ["static"])
    refine ⟨r2.set_duration durationMs, ?_, ?_⟩
    · simp [scan_directoryWith, h1]
    · simpa [ScanResult.set_duration, ScanResult.new] using h2

/-- C6: after any sequence of add_vulnerabilities calls starting from a
fresh ScanResult, total_issues equals the number of findings and each
severity counter equals the number of findings of that severity. -/
theorem c6_summary_aggregation_invariant (batches : List (List Vulnerability))
    (target : String) (scan_types : List String) :
    let r := batches.foldl ScanResult.add_vulnerabilities
      (ScanResult.new target scan_types)
    r.summary.total_issues = r.findings.length ∧
    r.summary.critical = r.findings.countP (fun v => v.severity == Severity.critical) ∧
    r.summary.high = r.findings.countP (fun v => v.severity == Severity.high) ∧
    r.summary.medium = r.findings.countP (fun v => v.severity == Severity.medium) ∧
    r.summary.low = r.findings.countP (fun v => v.severity == Severity.low) := by
  simp only [foldl_add_vulnerabilities]
  simp [ScanResult.add_vulnerabilities, ScanResult.new, ScanSummary.zero,
    foldl_bumpSummary]

/-- C5: has_issues_at_level(t) is true iff some finding's severity is at
or above t under Low < Medium < High < Critical; in particular at the High
threshold it is true iff some finding is High or Critical, and false when
all findings are Low or Medium. -/
theorem c5_has_issues_at_level_iff (r : ScanResult) (t : Severity) :
    (r.has_issues_at_level t = true ↔
      ∃ v ∈ r.findings, t.level ≤ v.severity.level) ∧
    (r.has_issues_at_level .high = true ↔
      ∃ v ∈ r.findings, v.severity = .high ∨ v.severity = .critical) ∧
    ((∀ v ∈ r.findings, v.severity = .low ∨ v.severity = .medium) →
      r.has_issues_at_level .high = false) := by
  refine ⟨?_, ?_, ?_⟩
  · simp [ScanResult.has_issues_at_level, List.any_eq_true]
  · simp only [ScanResult.has_issues_at_level, List.any_eq_true,
      decide_eq_true_eq]
    constructor
    · rintro ⟨v, hv, hle⟩
      refine ⟨v, hv, ?_⟩
      cases hsev : v.severity <;> simp [hsev, Severity.level] at hle ⊢
    · rintro ⟨v, hv, h⟩
      refine ⟨v, hv, ?_⟩
      rcases h with h | h <;> simp [h, Severity.level]
  · intro hall
    cases hEq : r.has_issues_at_level .high with
    | false => rfl
    | true =>
        exfalso
        rw [ScanResult.has_issues_at_level] at hEq
        simp only [List.any_eq_true, decide_eq_true_eq] at hEq
        obtain ⟨v, hv, hle⟩ := hEq
        rcases hall v hv with h | h <;> simp [h, Severity.level] at hle

/-- Witness for C5 at a concrete result holding one Low and one Medium
finding: the High gate is false. -/
theorem c5_has_issues_at_level_iff_witness :
    ((ScanResult.new "target" ["static"]).add_vulnerabilities
        [Vulnerability.new "V-001" .codeInjection .low "t" "d",
         Vulnerability.new "V-002" .sqlInjection .medium "t" "d"]).has_issues_at_level
      Severity.high = false :=
  (c5_has_issues_at_level_iff
    ((ScanResult.new "target" ["static"]).add_vulnerabilities
        [Vulnerability.new "V-001" .codeInjection .low "t" "d",
         Vulnerability.new "V-002" .sqlInjection .medium "t" "d"])
    Severity.high).2.2 (by decide)

theorem ciMk_id (p : CodeInjectionPattern) (n lineNum : Nat) (l path : String) :
    (ciMk p n lineNum l path).id = "CODE-INJ-" ++ pad3 n := rfl

theorem ciMk_snippet (p : CodeInjectionPattern) (n lineNum : Nat) (l path : String) :
    (ciMk p n lineNum l path).code_snippet = l := rfl

theorem ciMk_kind (p : CodeInjectionPattern) (n lineNum : Nat) (l path : String) :
    (ciMk p n lineNum l path).kind = .codeInjection := rfl

theorem ciMk_withFile (p : CodeInjectionPattern) (n lineNum : Nat) (l path q : String) :
    ciMk p n lineNum l q = withFile q (ciMk p n lineNum l path) := rfl

theorem deserMk_id (p : DeserializationPattern) (n lineNum : Nat) (l path : String) :
    (deserMk p n lineNum l path).id = "DESER-" ++ pad3 n := rfl

theorem deserMk_snippet (p : DeserializationPattern) (n lineNum : Nat) (l path : String) :
    (deserMk p n lineNum l path).code_snippet = l := rfl

theorem deserMk_kind (p : DeserializationPattern) (n lineNum : Nat) (l path : String) :
    (deserMk p n lineNum l path).kind = .unsafeDeserialization := rfl

theorem deserMk_withFile (p : DeserializationPattern) (n lineNum : Nat) (l path q : String) :
    deserMk p n lineNum l q = withFile q (deserMk p n lineNum l path) := rfl

theorem sqlMk_id (n lineNum : Nat) (l path : String) :
    (sqlMk n lineNum l path).id = "SQL-INJ-" ++ pad3 n := rfl

theorem sqlMk_withFile (n lineNum : Nat) (l path q : String) :
    sqlMk n lineNum l q = withFile q (sqlMk n lineNum l path) := rfl

theorem pathMk_id (n lineNum : Nat) (l path : String) :
    (pathMk n lineNum l path).id = "PATH-TRAV-" ++ pad3 n := rfl

theorem pathMk_withFile (n lineNum : Nat) (l path q : String) :
    pathMk n lineNum l q = withFile q (pathMk n lineNum l path) := rfl

theorem ssrfMk_id (n lineNum : Nat) (l path : String) :
    (ssrfMk n lineNum l path).id = "SSRF-" ++ pad3 n := rfl

theorem ssrfMk_withFile (n lineNum : Nat) (l path q : String) :
    ssrfMk n lineNum l q = withFile q (ssrfMk n lineNum l path) := rfl

/-- C1 (amended): for the code-injection and deserialization families
every catalog pattern that matches a non-skipped line produces its own
independent finding (k matching patterns yield k findings, no
deduplication), but for the sql-injection, path-traversal and ssrf
families the pattern loop breaks after the first match, so a line
contributes exactly one finding when any pattern matches, regardless of
how many match. -/
theorem c1_match_multiplicity (content path : String) :
    (∃ vs, code_injection.detect content path = .ok vs ∧
      vs.length = ((rustLines content).map (fun l =>
        if isCommentLine l then 0
        else CODE_INJECTION_PATTERNS.countP (fun p => patMatch p.pat l))).sum) ∧
    (∃ vs, deserialization.detect content path = .ok vs ∧
      vs.length = ((rustLines content).map (fun l =>
        DESERIALIZATION_PATTERNS.countP (fun p => patMatch p.pat l))).sum) ∧
    (∃ vs, sql_injection.detect content path = .ok vs ∧
      vs.length = (rustLines content).countP
        (fun l => SQL_INJECTION_PATTERNS.any (fun p => patMatch p l))) ∧
    (∃ vs, path_traversal.detect content path = .ok vs ∧
      vs.length = (rustLines content).countP
        (fun l => PATH_TRAVERSAL_PATTERNS.any (fun p => patMatch p l))) ∧
    (∃ vs, ssrf.detect content path = .ok vs ∧
      vs.length = (rustLines content).countP
        (fun l => SSRF_PATTERNS.any (fun p => patMatch p l))) := by
  refine ⟨⟨_, rfl, ?_⟩, ⟨_, rfl, ?_⟩, ⟨_, rfl, ?_⟩, ⟨_, rfl, ?_⟩, ⟨_, rfl, ?_⟩⟩
  · rw [perMatchLines_length]
    simp
  · rw [perMatchLines_length]
    simp
  · exact firstMatchLines_length SQL_INJECTION_PATTERNS sqlMk path
      (rustLines content) 0 1
  · exact firstMatchLines_length PATH_TRAVERSAL_PATTERNS pathMk path
      (rustLines content) 0 1
  · exact firstMatchLines_length SSRF_PATTERNS ssrfMk path
      (rustLines content) 0 1

/-- C1 counterexample: on the line `execute(q + u % v)` two distinct
patterns of the SQL injection catalog match (the `+`-concatenation and the
`%`-interpolation patterns), yet the detector returns exactly one finding
— its pattern loop breaks after the first match, so k matching patterns do
not yield k findings. -/
theorem c1_sql_break_counterexample :
    2 ≤ SQL_INJECTION_PATTERNS.countP (fun p => patMatch p "execute(q + u % v)") ∧
    (okFindings (sql_injection.detect "execute(q + u % v)" "server.py")).length = 1 :=
  ⟨by decide, by decide⟩

/-- C3: the code-injection detector never reports a finding whose
triggering line (stored verbatim as the code snippet) is a comment line —
a line whose trimmed form starts with `#` or `//` — and in particular the
contents `# eval(x)` and `// eval(x)` produce zero findings. -/
theorem c3_code_injection_comment_skip (content path : String) :
    (okFindings (code_injection.detect content path)).all
      (fun v => !(isCommentLine v.code_snippet)) = true ∧
    code_injection.detect "# eval(x)" path = .ok [] ∧
    code_injection.detect "// eval(x)" path = .ok [] := by
  refine ⟨?_, rfl, rfl⟩
  rw [List.all_eq_true]
  intro v hv
  simp only [code_injection.detect, okFindings] at hv
  exact perMatchLines_prop true (fun p l => patMatch p.pat l) ciMk
    CODE_INJECTION_PATTERNS path
    (fun v => (!(isCommentLine v.code_snippet)) = true)
    (fun p n lineNum l _ hnc => by
      have hc : isCommentLine l = false := by simpa using hnc
      simp [ciMk_snippet, hc])
    (rustLines content) 0 1 v hv

/-- C9: within one invocation of each implemented detector, the finding at
0-based position k carries the id `PREFIX-` followed by k+1 zero-padded to
three digits — a per-invocation counter starting at 1, with no cross-file
or cross-detector uniqueness. -/
theorem c9_finding_id_numbering (content path : String) :
    (okFindings (code_injection.detect content path)).map (fun v => v.id)
      = (List.range (okFindings (code_injection.detect content path)).length).map
          (fun k => "CODE-INJ-" ++ pad3 (k + 1)) ∧
    (okFindings (deserialization.detect content path)).map (fun v => v.id)
      = (List.range (okFindings (deserialization.detect content path)).length).map
          (fun k => "DESER-" ++ pad3 (k + 1)) ∧
    (okFindings (sql_injection.detect content path)).map (fun v => v.id)
      = (List.range (okFindings (sql_injection.detect content path)).length).map
          (fun k => "SQL-INJ-" ++ pad3 (k + 1)) ∧
    (okFindings (path_traversal.detect content path)).map (fun v => v.id)
      = (List.range (okFindings (path_traversal.detect content path)).length).map
          (fun k => "PATH-TRAV-" ++ pad3 (k + 1)) ∧
    (okFindings (ssrf.detect content path)).map (fun v => v.id)
      = (List.range (okFindings (ssrf.detect content path)).length).map
          (fun k => "SSRF-" ++ pad3 (k + 1)) := by
  refine ⟨?_, ?_, ?_, ?_, ?_⟩
  · simp only [code_injection.detect, okFindings]
    rw [perMatchLines_ids true (fun p l => patMatch p.pat l) ciMk
      CODE_INJECTION_PATTERNS path "CODE-INJ-"
      (fun p n lineNum l => ciMk_id p n lineNum l path)]
    rw [idsFrom_eq_range]
    apply List.map_congr_left
    intro k _
    rw [Nat.add_comm]
  · simp only [deserialization.detect, okFindings]
    rw [perMatchLines_ids false (fun p l => patMatch p.pat l) deserMk
      DESERIALIZATION_PATTERNS path "DESER-"
      (fun p n lineNum l => deserMk_id p n lineNum l path)]
    rw [idsFrom_eq_range]
    apply List.map_congr_left
    intro k _
    rw [Nat.add_comm]
  · simp only [sql_injection.detect, okFindings]
    rw [firstMatchLines_ids SQL_INJECTION_PATTERNS sqlMk path "SQL-INJ-"
      (fun n lineNum l => sqlMk_id n lineNum l path)]
    rw [idsFrom_eq_range]
    apply List.map_congr_left
    intro k _
    rw [Nat.add_comm]
  · simp only [path_traversal.detect, okFindings]
    rw [firstMatchLines_ids PATH_TRAVERSAL_PATTERNS pathMk path "PATH-TRAV-"
      (fun n lineNum l => pathMk_id n lineNum l path)]
    rw [idsFrom_eq_range]
    apply List.map_congr_left
    intro k _
    rw [Nat.add_comm]
  · simp only [ssrf.detect, okFindings]
    rw [firstMatchLines_ids SSRF_PATTERNS ssrfMk path "SSRF-"
      (fun n lineNum l => ssrfMk_id n lineNum l path)]
    rw [idsFrom_eq_range]
    apply List.map_congr_left
    intro k _
    rw [Nat.add_comm]

/-- C10: every implemented detector depends on the file path only through
the path stored in each finding's location: on the same content, the
finding lists for two paths agree elementwise on every field once the
stored path is replaced. -/
theorem c10_path_independence (content p1 p2 : String) :
    okFindings (code_injection.detect content p1)
      = (okFindings (code_injection.detect content p2)).map (withFile p1) ∧
    okFindings (deserialization.detect content p1)
      = (okFindings (deserialization.detect content p2)).map (withFile p1) ∧
    okFindings (sql_injection.detect content p1)
      = (okFindings (sql_injection.detect content p2)).map (withFile p1) ∧
    okFindings (path_traversal.detect content p1)
      = (okFindings (path_traversal.detect content p2)).map (withFile p1) ∧
    okFindings (ssrf.detect content p1)
      = (okFindings (ssrf.detect content p2)).map (withFile p1) := by
  refine ⟨?_, ?_, ?_, ?_, ?_⟩
  · simp only [code_injection.detect, okFindings]
    exact perMatchLines_withFile true (fun p l => patMatch p.pat l) ciMk
      CODE_INJECTION_PATTERNS p2 p1
      (fun p n lineNum l => ciMk_withFile p n lineNum l p2 p1)
      (rustLines content) 0 1
  · simp only [deserialization.detect, okFindings]
    exact perMatchLines_withFile false (fun p l => patMatch p.pat l) deserMk
      DESERIALIZATION_PATTERNS p2 p1
      (fun p n lineNum l => deserMk_withFile p n lineNum l p2 p1)
      (rustLines content) 0 1
  · simp only [sql_injection.detect, okFindings]
    exact firstMatchLines_withFile SQL_INJECTION_PATTERNS sqlMk p2 p1
      (fun n lineNum l => sqlMk_withFile n lineNum l p2 p1)
      (rustLines content) 0 1
  · simp only [path_traversal.detect, okFindings]
    exact firstMatchLines_withFile PATH_TRAVERSAL_PATTERNS pathMk p2 p1
      (fun n lineNum l => pathMk_withFile n lineNum l p2 p1)
      (rustLines content) 0 1
  · simp only [ssrf.detect, okFindings]
    exact firstMatchLines_withFile SSRF_PATTERNS ssrfMk p2 p1
      (fun n lineNum l => ssrfMk_withFile n lineNum l p2 p1)
      (rustLines content) 0 1

/-- C8: each family's literal catalog sample, appearing as a line of the
scanned content (a non-comment line for the comment-filtering family),
makes the corresponding detector report at least one finding with the
family's vulnerability kind and the triggering line stored verbatim as the
code snippet; for path traversal any line containing `../` suffices. -/
theorem c8_catalog_samples_detected (content path : String) :
    ("eval(user_input)" ∈ rustLines content →
      ∃ v ∈ okFindings (code_injection.detect content path),
        v.kind = .codeInjection ∧ v.code_snippet = "eval(user_input)") ∧
    ("pickle.loads(data)" ∈ rustLines content →
      ∃ v ∈ okFindings (deserialization.detect content path),
        v.kind = .unsafeDeserialization ∧ v.code_snippet = "pickle.loads(data)") ∧
    (∀ l ∈ rustLines content, strContains l "../" = true →
      ∃ v ∈ okFindings (path_traversal.detect content path),
        v.kind = .pathTraversal ∧ v.code_snippet = l) ∧
    ("execute(query + user)" ∈ rustLines content →
      ∃ v ∈ okFindings (sql_injection.detect content path),
        v.kind = .sqlInjection ∧ v.code_snippet = "execute(query + user)") ∧
    ("fetch(url + param)" ∈ rustLines content →
      ∃ v ∈ okFindings (ssrf.detect content path),
        v.kind = .dataExfiltration ∧ v.code_snippet = "fetch(url + param)") := by
  refine ⟨?_, ?_, ?_, ?_, ?_⟩
  · intro hmem
    simp only [code_injection.detect, okFindings]
    obtain ⟨v, hv, hP⟩ := perMatchLines_exists_mem true
      (fun p l => patMatch p.pat l) ciMk CODE_INJECTION_PATTERNS path
      (fun v => v.kind = .codeInjection ∧ v.code_snippet = "eval(user_input)")
      "eval(user_input)"
      (fun p n lineNum _ => ⟨ciMk_kind p n lineNum "eval(user_input)" path,
        ciMk_snippet p n lineNum "eval(user_input)" path⟩)
      (rustLines content) 0 1 hmem (by decide) (by decide)
    exact ⟨v, hv, hP⟩
  · intro hmem
    simp only [deserialization.detect, okFindings]
    obtain ⟨v, hv, hP⟩ := perMatchLines_exists_mem false
      (fun p l => patMatch p.pat l) deserMk DESERIALIZATION_PATTERNS path
      (fun v => v.kind = .unsafeDeserialization ∧
        v.code_snippet = "pickle.loads(data)")
      "pickle.loads(data)"
      (fun p n lineNum _ => ⟨deserMk_kind p n lineNum "pickle.loads(data)" path,
        deserMk_snippet p n lineNum "pickle.loads(data)" path⟩)
      (rustLines content) 0 1 hmem (by decide) (by decide)
    exact ⟨v, hv, hP⟩
  · intro l hmem hsub
    simp only [path_traversal.detect, okFindings]
    have h1 : patMatch (lits "../") l = true := by
      rw [patMatch_lits]
      exact hsub
    have hany : PATH_TRAVERSAL_PATTERNS.any (fun p => patMatch p l) = true := by
      simp [PATH_TRAVERSAL_PATTERNS, List.any_cons, h1]
    obtain ⟨v, hv, hP⟩ := firstMatchLines_exists_mem PATH_TRAVERSAL_PATTERNS
      pathMk path (fun v => v.kind = .pathTraversal ∧ v.code_snippet = l) l
      (fun n lineNum => ⟨rfl, rfl⟩) (rustLines content) 0 1 hmem hany
    exact ⟨v, hv, hP⟩
  · intro hmem
    simp only [sql_injection.detect, okFindings]
    obtain ⟨v, hv, hP⟩ := firstMatchLines_exists_mem SQL_INJECTION_PATTERNS
      sqlMk path
      (fun v => v.kind = .sqlInjection ∧ v.code_snippet = "execute(query + user)")
      "execute(query + user)"
      (fun n lineNum => ⟨rfl, rfl⟩) (rustLines content) 0 1 hmem (by decide)
    exact ⟨v, hv, hP⟩
  · intro hmem
    simp only [ssrf.detect, okFindings]
    obtain ⟨v, hv, hP⟩ := firstMatchLines_exists_mem SSRF_PATTERNS
      ssrfMk path
      (fun v => v.kind = .dataExfiltration ∧ v.code_snippet = "fetch(url + param)")
      "fetch(url + param)"
      (fun n lineNum => ⟨rfl, rfl⟩) (rustLines content) 0 1 hmem (by decide)
    exact ⟨v, hv, hP⟩

/-- Witness for C8 on a five-line content holding one sample per family. -/
theorem c8_catalog_samples_detected_witness :
    (∃ v ∈ okFindings (code_injection.detect
        "eval(user_input)\npickle.loads(data)\ns = \"../\"\nexecute(query + user)\nfetch(url + param)"
        "w.py"),
      v.kind = .codeInjection ∧ v.code_snippet = "eval(user_input)") ∧
    (∃ v ∈ okFindings (deserialization.detect
        "eval(user_input)\npickle.loads(data)\ns = \"../\"\nexecute(query + user)\nfetch(url + param)"
        "w.py"),
      v.kind = .unsafeDeserialization ∧ v.code_snippet = "pickle.loads(data)") ∧
    (∃ v ∈ okFindings (path_traversal.detect
        "eval(user_input)\npickle.loads(data)\ns = \"../\"\nexecute(query + user)\nfetch(url + param)"
        "w.py"),
      v.kind = .pathTraversal ∧ v.code_snippet = "s = \"../\"") ∧
    (∃ v ∈ okFindings (sql_injection.detect
        "eval(user_input)\npickle.loads(data)\ns = \"../\"\nexecute(query + user)\nfetch(url + param)"
        "w.py"),
      v.kind = .sqlInjection ∧ v.code_snippet = "execute(query + user)") ∧
    (∃ v ∈ okFindings (ssrf.detect
        "eval(user_input)\npickle.loads(data)\ns = \"../\"\nexecute(query + user)\nfetch(url + param)"
        "w.py"),
      v.kind = .dataExfiltration ∧ v.code_snippet = "fetch(url + param)") := by
  have h := c8_catalog_samples_detected
    "eval(user_input)\npickle.loads(data)\ns = \"../\"\nexecute(query + user)\nfetch(url + param)"
    "w.py"
  exact ⟨h.1 (by decide), h.2.1 (by decide),
    h.2.2.1 "s = \"../\"" (by decide) (by decide),
    h.2.2.2.1 (by decide), h.2.2.2.2 (by decide)⟩
